import Mathlib

/-
Verification development for the iRIS Training Assistant
(src/Training-Assistant.py), a Streamlit quiz/training app.

The program is a single script re-executed on each user interaction
("rerun"), with all state in `st.session_state`.  We embed it as:

  * pure string functions for the LLM-output sanitization and JSON
    parsing performed by `generate_questions_from_text` (lines 36-99),
    with the LLM network call modelled as an `Except String String`
    oracle (an `Except.error` is a raised exception);
  * an explicit state machine `QuizState`/`Event`/`step` for the
    session state.  Each `step` is: run the clicked widget's handler
    (`handle`), then re-execute the script body once (`renderPass`),
    which mirrors the `st.rerun()` at the end of every handler.
    `renderPass` performs the render-time state mutations of the
    script: the quiz-completion assignment (lines 359-362), the
    guarded progress save (lines 365-375, with a `saveOk` oracle for
    the `try/except` around `save_progress_global`), and the
    auto-generated-prompt consumption (lines 452-457).
  * the second GPT-handling block (lines 531-567) is dead code: every
    path that sets `awaiting_gpt` ends in `st.rerun()`, and on the
    next pass the first GPT block (lines 477-507) clears the flag and
    itself ends in `st.rerun()` before line 531 is reached.  It is
    therefore not part of the model.

Real time (the progress-entry timestamp), the filesystem layout and
the UI rendering itself are outside the model; the progress CSV is
modelled as the list of appended rows.
-/

namespace TrainingAssistant

/-! ## Configuration constants (lines 16-17) -/

def QUESTIONS_PER_SESSION : Nat := 2

def PASSING_SCORE : Nat := 1

/-! ## Python string primitives used by the script -/

/-- Python `str.isspace` characters relevant to `str.strip()` (ASCII). -/
def isPySpace (c : Char) : Bool :=
  c == ' ' || c == '\t' || c == '\n' || c == '\r' || c == '\x0b' || c == '\x0c'

/-- Python `str.strip()` with no arguments: drop leading and trailing
whitespace. -/
def pyStrip (s : String) : String :=
  ⟨((s.data.dropWhile isPySpace).reverse.dropWhile isPySpace).reverse⟩

/-- Python `str.lower()` (ASCII case folding suffices here). -/
def strLower (s : String) : String :=
  ⟨s.data.map Char.toLower⟩

/-- Line 101-102: `evaluate_answer(user_answer, correct_answer)` returns
`user_answer.strip().lower() == correct_answer.strip().lower()`. -/
def evaluate_answer (user_answer correct_answer : String) : Bool :=
  strLower (pyStrip user_answer) == strLower (pyStrip correct_answer)

/-! ## JSON values and a model of Python `json.loads`

Numbers are kept as their source lexemes: no numeric claim depends on
float semantics, only on which texts parse.  The parser follows the
strict behaviour of `json.loads`: JSON whitespace is space, tab,
newline, carriage return; trailing commas are rejected; strings
require the standard escapes and reject unescaped control characters;
number syntax is `-?(0|[1-9][0-9]*)(.[0-9]+)?([eE][+-]?[0-9]+)?`;
the Python-specific constants `NaN`, `Infinity`, `-Infinity` are
accepted. -/

inductive Json where
  | null
  | bool (b : Bool)
  | num (lexeme : String)
  | str (s : String)
  | arr (elems : List Json)
  | obj (members : List (String × Json))

/-- JSON inter-token whitespace as accepted by `json.loads`. -/
def isJsonWs (c : Char) : Bool :=
  c == ' ' || c == '\t' || c == '\n' || c == '\r'

def skipWs (cs : List Char) : List Char :=
  cs.dropWhile isJsonWs

/-- Value of a hexadecimal digit. -/
def hexVal (c : Char) : Option Nat :=
  if c.isDigit then some (c.toNat - 48)
  else if 'a' ≤ c ∧ c ≤ 'f' then some (c.toNat - 87)
  else if 'A' ≤ c ∧ c ≤ 'F' then some (c.toNat - 55)
  else none

/-- Parse the remainder of a JSON string (the opening quote already
consumed), returning the decoded string and the rest of the input. -/
def parseStrAux (acc : List Char) : List Char → Option (String × List Char)
  | [] => none
  | '"' :: rest => some (⟨acc.reverse⟩, rest)
  | '\\' :: 'u' :: a :: b :: c :: d :: rest =>
    match hexVal a, hexVal b, hexVal c, hexVal d with
    | some ha, some hb, some hc, some hd =>
      parseStrAux (Char.ofNat (((ha * 16 + hb) * 16 + hc) * 16 + hd) :: acc) rest
    | _, _, _, _ => none
  | '\\' :: e :: rest =>
    if e == '"' then parseStrAux ('"' :: acc) rest
    else if e == '\\' then parseStrAux ('\\' :: acc) rest
    else if e == '/' then parseStrAux ('/' :: acc) rest
    else if e == 'b' then parseStrAux ('\x08' :: acc) rest
    else if e == 'f' then parseStrAux ('\x0c' :: acc) rest
    else if e == 'n' then parseStrAux ('\n' :: acc) rest
    else if e == 'r' then parseStrAux ('\r' :: acc) rest
    else if e == 't' then parseStrAux ('\t' :: acc) rest
    else none
  | c :: rest =>
    if c.toNat < 32 then none else parseStrAux (c :: acc) rest

/-- Optional fraction part `.[0-9]+`; consumed only if complete. -/
def parseFrac (cs : List Char) : List Char × List Char :=
  match cs with
  | '.' :: r =>
    let ds := r.takeWhile Char.isDigit
    if ds.isEmpty then ([], cs) else ('.' :: ds, r.dropWhile Char.isDigit)
  | _ => ([], cs)

/-- Optional exponent part `[eE][+-]?[0-9]+`; consumed only if complete. -/
def parseExp (cs : List Char) : List Char × List Char :=
  match cs with
  | e :: r =>
    if e == 'e' || e == 'E' then
      let (sgn, r2) := match r with
        | c :: rr => if c == '+' || c == '-' then ([c], rr) else (([] : List Char), r)
        | [] => ([], r)
      let ds := r2.takeWhile Char.isDigit
      if ds.isEmpty then ([], cs) else (e :: (sgn ++ ds), r2.dropWhile Char.isDigit)
    else ([], cs)
  | [] => ([], cs)

/-- Lex a JSON number at the head of the input, returning its lexeme. -/
def parseNum (cs : List Char) : Option (String × List Char) :=
  let (sign, cs1) := match cs with
    | '-' :: r => ((['-'] : List Char), r)
    | _ => ([], cs)
  match cs1 with
  | c :: r =>
    if c == '0' then
      let (f, r1) := parseFrac r
      let (e, r2) := parseExp r1
      some (⟨sign ++ [c] ++ f ++ e⟩, r2)
    else if c.isDigit then
      let ds := r.takeWhile Char.isDigit
      let r0 := r.dropWhile Char.isDigit
      let (f, r1) := parseFrac r0
      let (e, r2) := parseExp r1
      some (⟨sign ++ (c :: ds) ++ f ++ e⟩, r2)
    else none
  | [] => none

mutual

def parseVal : Nat → List Char → Option (Json × List Char)
  | 0, _ => none
  | fuel + 1, cs =>
    match skipWs cs with
    | [] => none
    | '"' :: rest => (parseStrAux [] rest).map (fun p => (Json.str p.1, p.2))
    | '[' :: rest => parseArrTail fuel (skipWs rest)
    | '{' :: rest => parseObjTail fuel (skipWs rest)
    | 't' :: 'r' :: 'u' :: 'e' :: rest => some (Json.bool true, rest)
    | 'f' :: 'a' :: 'l' :: 's' :: 'e' :: rest => some (Json.bool false, rest)
    | 'n' :: 'u' :: 'l' :: 'l' :: rest => some (Json.null, rest)
    | 'N' :: 'a' :: 'N' :: rest => some (Json.num "NaN", rest)
    | 'I' :: 'n' :: 'f' :: 'i' :: 'n' :: 'i' :: 't' :: 'y' :: rest =>
      some (Json.num "Infinity", rest)
    | '-' :: 'I' :: 'n' :: 'f' :: 'i' :: 'n' :: 'i' :: 't' :: 'y' :: rest =>
      some (Json.num "-Infinity", rest)
    | c :: rest =>
      if c == '-' || c.isDigit then
        (parseNum (c :: rest)).map (fun p => (Json.num p.1, p.2))
      else none

def parseArrTail : Nat → List Char → Option (Json × List Char)
  | 0, _ => none
  | fuel + 1, cs =>
    match cs with
    | ']' :: rest => some (Json.arr [], rest)
    | _ => parseArrLoop fuel cs []

def parseArrLoop : Nat → List Char → List Json → Option (Json × List Char)
  | 0, _, _ => none
  | fuel + 1, cs, acc =>
    match parseVal fuel cs with
    | none => none
    | some (v, rest) =>
      match skipWs rest with
      | ',' :: rest2 => parseArrLoop fuel rest2 (v :: acc)
      | ']' :: rest2 => some (Json.arr (v :: acc).reverse, rest2)
      | _ => none

def parseObjTail : Nat → List Char → Option (Json × List Char)
  | 0, _ => none
  | fuel + 1, cs =>
    match cs with
    | '}' :: rest => some (Json.obj [], rest)
    | _ => parseObjLoop fuel cs []

def parseObjLoop : Nat → List Char → List (String × Json) → Option (Json × List Char)
  | 0, _, _ => none
  | fuel + 1, cs, acc =>
    match skipWs cs with
    | '"' :: rest =>
      match parseStrAux [] rest with
      | none => none
      | some (k, rest1) =>
        match skipWs rest1 with
        | ':' :: rest2 =>
          match parseVal fuel rest2 with
          | none => none
          | some (v, rest3) =>
            match skipWs rest3 with
            | ',' :: rest4 => parseObjLoop fuel rest4 ((k, v) :: acc)
            | '}' :: rest4 => some (Json.obj ((k, v) :: acc).reverse, rest4)
            | _ => none
        | _ => none
    | _ => none

end

/-- Model of Python `json.loads`: parse one value, then require only
whitespace to remain. -/
def json_loads (s : String) : Option Json :=
  match parseVal (4 * (s.length + 4)) s.data with
  | some (v, rest) => if (skipWs rest).isEmpty then some v else none
  | none => none

/-! ## The sanitization pipeline of `generate_questions_from_text`
(lines 89-93) -/

/-- Backtick, written by code point to keep the source ASCII-clean. -/
def isBacktickChar (c : Char) : Bool := c.toNat == 96

/-- Recognize a case-insensitive `json` tag right after the fence. -/
def jsonTagLower : List Char → Option (List Char)
  | c1 :: c2 :: c3 :: c4 :: rest =>
    if c1.toLower == 'j' && c2.toLower == 's' && c3.toLower == 'o' && c4.toLower == 'n'
    then some rest else none
  | _ => none

/-- Line 90: `re.sub(r"^` triple-backtick `(?:json)?", "", raw.strip(),
flags=re.IGNORECASE)` — strip one leading code-fence marker, optionally
tagged `json` in any case.  Because the input is stripped first, the
anchor is the true start of the string. -/
def stripLeadingFence (s : String) : String :=
  match s.data with
  | c1 :: c2 :: c3 :: rest =>
    if isBacktickChar c1 && isBacktickChar c2 && isBacktickChar c3 then
      match jsonTagLower rest with
      | some rest2 => ⟨rest2⟩
      | none => ⟨rest⟩
    else s
  | _ => s

/-- Line 91: `re.sub(r"` triple-backtick `$", "", raw.strip())` — after
stripping, `$` can only match at the true end of the string, so this
removes a trailing code-fence marker if present. -/
def stripTrailingFence (s : String) : String :=
  match s.data.reverse with
  | c1 :: c2 :: c3 :: rest =>
    if isBacktickChar c1 && isBacktickChar c2 && isBacktickChar c3 then ⟨rest.reverse⟩
    else s
  | _ => s

/-- Line 92: replace the four curly-quote characters U+201C, U+201D,
U+2018, U+2019 by straight quotes. -/
def normQuoteChar (c : Char) : Char :=
  if c == Char.ofNat 0x201C || c == Char.ofNat 0x201D then '"'
  else if c == Char.ofNat 0x2018 || c == Char.ofNat 0x2019 then '\''
  else c

def normalizeQuotes (s : String) : String :=
  ⟨s.data.map normQuoteChar⟩

/-- Line 93: `re.sub(r",(\s*[\]}])", r"\1", raw)` — delete every comma
followed by optional whitespace and a closing bracket or brace;
`re.sub` scans left to right and resumes after the matched text. -/
def removeTrailingCommasGo : Nat → List Char → List Char
  | 0, cs => cs
  | _ + 1, [] => []
  | fuel + 1, c :: rest =>
    if c == ',' then
      let ws := rest.takeWhile isPySpace
      match rest.dropWhile isPySpace with
      | d :: rest2 =>
        if d == ']' || d == '}' then ws ++ d :: removeTrailingCommasGo fuel rest2
        else c :: removeTrailingCommasGo fuel rest
      | [] => c :: removeTrailingCommasGo fuel rest
    else c :: removeTrailingCommasGo fuel rest

def removeTrailingCommas (s : String) : String :=
  ⟨removeTrailingCommasGo (s.length + 1) s.data⟩

/-- Lines 89-93 in order: strip, drop a leading fence, strip again,
drop a trailing fence, normalize quotes, remove trailing commas. -/
def sanitize_model_output (content : String) : String :=
  removeTrailingCommas (normalizeQuotes (stripTrailingFence (pyStrip (stripLeadingFence (pyStrip content)))))

/-- Result of `generate_questions_from_text`: the returned value
(whatever `json.loads` produced, or an empty array on parse failure)
together with the diagnostic text shown by `st.text_area` when parsing
failed (line 98 shows the sanitized text bound to `raw` at that point). -/
structure GenOutcome where
  questions : Json
  diagnostic : Option String

/-- Lines 85-99 of `generate_questions_from_text`.  The LLM call at
line 85 is modelled by the `modelResult` oracle; it sits OUTSIDE the
`try` block (which begins at line 94 and guards only `json.loads`), so
an API failure propagates out of the function — modelled as returning
`Except.error`.  A parse failure is caught and yields an empty array
plus the raw-text diagnostic. -/
def generate_questions_from_text (modelResult : Except String String) :
    Except String GenOutcome :=
  match modelResult with
  | Except.error e => Except.error e
  | Except.ok content =>
    let raw := sanitize_model_output content
    match json_loads raw with
    | some v => Except.ok ⟨v, none⟩
    | none => Except.ok ⟨Json.arr [], some raw⟩

/-- True exactly when the `Except` value is an uncaught exception. -/
def propagatesError {α : Type} (r : Except String α) : Bool :=
  match r with
  | Except.error _ => true
  | Except.ok _ => false

/-! ## The chat advisory call site (lines 477-507)

The model call at lines 495-498 is wrapped in `try/except`; on failure
the reply becomes the inline warning string of line 501. -/

def gpt_reply (result : Except String String) : String :=
  match result with
  | Except.ok content => pyStrip content
  | Except.error e => "⚠️ GPT failed to respond: " ++ e

/-! ## Session state (the quiz state machine) -/

/-- One generated quiz item as consumed by the quiz UI (keys accessed
at lines 330-351: `question`, `options`, `answer`, optional `page`). -/
structure QuizItem where
  question : String
  qtype : String
  options : List String
  answer : String
  page : Option Int

inductive Role where
  | user
  | assistant
deriving DecidableEq

/-- One row appended to `training/progress.csv` by
`save_progress_global` (lines 104-115); the wall-clock timestamp and
the opaque session id are outside the model. -/
structure ProgressEntry where
  module : String
  user : String
  score : Nat

/-- The `st.session_state` fields the claims depend on, plus the
progress file contents (`progress_log`) and a ghost counter
`save_invocations` counting calls of `save_progress_global`. -/
structure QuizState where
  questions : List QuizItem
  current_q : Nat
  answers : List String
  scores : List Nat
  feedback_shown : Bool
  last_correct : Option Bool
  quiz_complete : Bool
  passed_quiz : Bool
  progress_saved : Bool
  chat_history : List (Role × String)
  summary_generated : Bool
  awaiting_gpt : Bool
  last_prompt : Option String
  auto_generated_prompt : Option String
  current_module : String
  user_name : String
  progress_log : List ProgressEntry
  save_invocations : Nat

/-- Session state right after name entry: the `default_quiz_state`
dictionary (lines 217-227) plus the chat initialization (lines
463-470), over a possibly non-empty pre-existing progress file. -/
def initState (module user : String) (log : List ProgressEntry) : QuizState where
  questions := []
  current_q := 0
  answers := []
  scores := []
  feedback_shown := false
  last_correct := none
  quiz_complete := false
  passed_quiz := false
  progress_saved := false
  chat_history := []
  summary_generated := false
  awaiting_gpt := false
  last_prompt := none
  auto_generated_prompt := none
  current_module := module
  user_name := user
  progress_log := log
  save_invocations := 0

/-- Line 321: `quiz_ready = st.session_state.questions and
st.session_state.current_q < len(st.session_state.questions)`. -/
def quizReady (s : QuizState) : Bool :=
  !s.questions.isEmpty && decide (s.current_q < s.questions.length)

/-- Python truthiness of `st.session_state.last_prompt`. -/
def promptPresent : Option String → Bool
  | some p => !(p == "")
  | none => false

/-- The canonical question submitted by the Module Summary button
(line 272). -/
def summaryPrompt : String := "Generate a training summary based on the material."

/-- The user interactions (and the model-call completions feeding
them) that drive one rerun of the script. -/
inductive Event where
  | rerender
  | startQuiz (qs : List QuizItem)
  | selectAnswer (opt : String)
  | nextQuestion
  | continueNext
  | retryQuiz (qs : List QuizItem)
  | summaryButton
  | sendChat (msg : String)
  | gptRespond (result : Except String String)

/-- The widget handlers.  Guards reproduce when each widget is
rendered and what its callback mutates:
`startQuiz` lines 276-295 (button shown only when `questions` is
empty; a successful generation carries the item list, an empty
generation leaves state unchanged);
`selectAnswer` lines 334-344 (option buttons shown while `quiz_ready`
and feedback not yet shown; only the current item's options exist);
`nextQuestion` lines 353-358;
`continueNext` lines 406-420 (module advance itself is outside the
model);
`retryQuiz` lines 439-450 (carries the regenerated items, with no
non-emptiness check, mirroring line 441);
`summaryButton` lines 271-274 (always shown — nothing consults
`summary_generated`);
`sendChat` lines 520-526;
`gptRespond` lines 477-507, the live GPT block, with the model result
as oracle. -/
def handle (s : QuizState) : Event → QuizState
  | Event.rerender => s
  | Event.startQuiz qs =>
    if s.questions.isEmpty then
      if qs.isEmpty then s
      else
        { s with questions := qs, current_q := 0, answers := [], scores := [],
                 feedback_shown := false, last_correct := none,
                 quiz_complete := false, passed_quiz := false }
    else s
  | Event.selectAnswer opt =>
    if quizReady s && !s.feedback_shown then
      match s.questions[s.current_q]? with
      | some q =>
        if q.options.contains opt then
          let correct := evaluate_answer opt q.answer
          { s with answers := s.answers ++ [opt],
                   scores := s.scores ++ [if correct then 1 else 0],
                   last_correct := some correct,
                   feedback_shown := true }
        else s
      | none => s
    else s
  | Event.nextQuestion =>
    if quizReady s && s.feedback_shown &&
        decide (s.current_q < QUESTIONS_PER_SESSION - 1) then
      { s with current_q := s.current_q + 1, feedback_shown := false,
               last_correct := none }
    else s
  | Event.continueNext =>
    if s.quiz_complete && s.passed_quiz then
      { s with questions := [], current_q := 0, answers := [], scores := [],
               feedback_shown := false, last_correct := none,
               quiz_complete := false, passed_quiz := false,
               progress_saved := false, chat_history := [] }
    else s
  | Event.retryQuiz qs =>
    if s.quiz_complete && !s.passed_quiz then
      { s with questions := qs, current_q := 0, answers := [], scores := [],
               feedback_shown := false, last_correct := none,
               quiz_complete := false, passed_quiz := false,
               progress_saved := false }
    else s
  | Event.summaryButton =>
    { s with auto_generated_prompt := some summaryPrompt,
             summary_generated := true }
  | Event.sendChat msg =>
    if pyStrip msg == "" then s
    else
      { s with last_prompt := some (pyStrip msg),
               chat_history := s.chat_history ++ [(Role.user, pyStrip msg)],
               awaiting_gpt := true }
  | Event.gptRespond result =>
    if s.awaiting_gpt && promptPresent s.last_prompt then
      { s with chat_history := s.chat_history ++ [(Role.assistant, gpt_reply result)],
               awaiting_gpt := false, last_prompt := none }
    else s

/-- Lines 359-362: the render-time completion assignment, reached when
the quiz is ready, feedback is showing, and `current_q` is not below
`QUESTIONS_PER_SESSION - 1`. -/
def completionAssign (s : QuizState) : QuizState :=
  if quizReady s && s.feedback_shown &&
      !(decide (s.current_q < QUESTIONS_PER_SESSION - 1)) then
    { s with quiz_complete := true,
             passed_quiz := decide (PASSING_SCORE ≤ s.scores.sum) }
  else s

/-- The row `save_progress_global` appends for the current state
(line 372: module, user name, `total_score = sum(scores)`). -/
def progressEntry (s : QuizState) : ProgressEntry :=
  ⟨s.current_module, s.user_name, s.scores.sum⟩

/-- Lines 365-375: on a completed quiz with the save not yet recorded,
`save_progress_global` is invoked (counted by the ghost field); if it
succeeds (`saveOk`) the row is appended and the flag set, if it raises
the `except` branch reports a warning and the flag stays clear. -/
def saveSection (saveOk : Bool) (s : QuizState) : QuizState :=
  if s.quiz_complete && !s.progress_saved then
    let s2 := { s with save_invocations := s.save_invocations + 1 }
    if saveOk then
      { s2 with progress_log := s2.progress_log ++ [progressEntry s2],
                progress_saved := true }
    else s2
  else s

/-- Lines 452-457: a pending auto-generated prompt is popped, recorded
as the last prompt, appended to the transcript as a user message, and
the GPT round is requested. -/
def autoPromptSection (s : QuizState) : QuizState :=
  match s.auto_generated_prompt with
  | some p =>
    { s with auto_generated_prompt := none, last_prompt := some p,
             chat_history := s.chat_history ++ [(Role.user, p)],
             awaiting_gpt := true }
  | none => s

/-- One re-execution of the script body after a handler ran: the three
render-time mutation sites in script order. -/
def renderPass (saveOk : Bool) (s : QuizState) : QuizState :=
  autoPromptSection (saveSection saveOk (completionAssign s))

/-- One user interaction: the handler followed by the rerun's render
pass.  `saveOk` is the persistence oracle for that pass. -/
def step (saveOk : Bool) (s : QuizState) (e : Event) : QuizState :=
  renderPass saveOk (handle s e)

/-- States reachable from a fresh session (over any pre-existing
progress file) by any sequence of interactions. -/
inductive Reachable : QuizState → Prop where
  | init (m u : String) (log : List ProgressEntry) : Reachable (initState m u log)
  | next (s : QuizState) (ok : Bool) (e : Event) :
      Reachable s → Reachable (step ok s e)

/-! ## Helper lemmas about the render pass -/

theorem completionAssign_preserves (s : QuizState) :
    (completionAssign s).questions = s.questions ∧
    (completionAssign s).current_q = s.current_q ∧
    (completionAssign s).answers = s.answers ∧
    (completionAssign s).scores = s.scores ∧
    (completionAssign s).feedback_shown = s.feedback_shown ∧
    (completionAssign s).progress_saved = s.progress_saved ∧
    (completionAssign s).progress_log = s.progress_log ∧
    (completionAssign s).save_invocations = s.save_invocations ∧
    (completionAssign s).chat_history = s.chat_history ∧
    (completionAssign s).awaiting_gpt = s.awaiting_gpt ∧
    (completionAssign s).last_prompt = s.last_prompt ∧
    (completionAssign s).auto_generated_prompt = s.auto_generated_prompt ∧
    (completionAssign s).summary_generated = s.summary_generated := by
  unfold completionAssign
  split <;> simp

theorem saveSection_preserves (ok : Bool) (s : QuizState) :
    (saveSection ok s).questions = s.questions ∧
    (saveSection ok s).current_q = s.current_q ∧
    (saveSection ok s).answers = s.answers ∧
    (saveSection ok s).scores = s.scores ∧
    (saveSection ok s).feedback_shown = s.feedback_shown ∧
    (saveSection ok s).quiz_complete = s.quiz_complete ∧
    (saveSection ok s).passed_quiz = s.passed_quiz ∧
    (saveSection ok s).chat_history = s.chat_history ∧
    (saveSection ok s).awaiting_gpt = s.awaiting_gpt ∧
    (saveSection ok s).last_prompt = s.last_prompt ∧
    (saveSection ok s).auto_generated_prompt = s.auto_generated_prompt ∧
    (saveSection ok s).summary_generated = s.summary_generated := by
  unfold saveSection
  split <;> [skip; simp]
  split <;> simp

theorem autoPromptSection_preserves (s : QuizState) :
    (autoPromptSection s).questions = s.questions ∧
    (autoPromptSection s).current_q = s.current_q ∧
    (autoPromptSection s).answers = s.answers ∧
    (autoPromptSection s).scores = s.scores ∧
    (autoPromptSection s).feedback_shown = s.feedback_shown ∧
    (autoPromptSection s).quiz_complete = s.quiz_complete ∧
    (autoPromptSection s).passed_quiz = s.passed_quiz ∧
    (autoPromptSection s).progress_saved = s.progress_saved ∧
    (autoPromptSection s).progress_log = s.progress_log ∧
    (autoPromptSection s).save_invocations = s.save_invocations := by
  unfold autoPromptSection
  split <;> simp

/-- The render pass never changes the quiz bookkeeping fields. -/
theorem renderPass_quiz_fields (ok : Bool) (s : QuizState) :
    (renderPass ok s).questions = s.questions ∧
    (renderPass ok s).current_q = s.current_q ∧
    (renderPass ok s).answers = s.answers ∧
    (renderPass ok s).scores = s.scores ∧
    (renderPass ok s).feedback_shown = s.feedback_shown := by
  unfold renderPass
  have h1 := autoPromptSection_preserves (saveSection ok (completionAssign s))
  have h2 := saveSection_preserves ok (completionAssign s)
  have h3 := completionAssign_preserves s
  exact ⟨by rw [h1.1, h2.1, h3.1], by rw [h1.2.1, h2.2.1, h3.2.1],
         by rw [h1.2.2.1, h2.2.2.1, h3.2.2.1],
         by rw [h1.2.2.2.1, h2.2.2.2.1, h3.2.2.2.1],
         by rw [h1.2.2.2.2.1, h2.2.2.2.2.1, h3.2.2.2.2.1]⟩

/-- In one interaction the answer and score lists are either left
unchanged, extended together by exactly one element (the score being 0
or 1), or reset to empty by installing a fresh question set. -/
theorem step_append_or_reset (ok : Bool) (s : QuizState) (e : Event) :
    ((step ok s e).answers = s.answers ∧ (step ok s e).scores = s.scores) ∨
    (∃ a n, (n = 0 ∨ n = 1) ∧ (step ok s e).answers = s.answers ++ [a] ∧
      (step ok s e).scores = s.scores ++ [n]) ∨
    ((step ok s e).answers = [] ∧ (step ok s e).scores = []) := by
  have ha : (step ok s e).answers = (handle s e).answers :=
    (renderPass_quiz_fields ok (handle s e)).2.2.1
  have hs : (step ok s e).scores = (handle s e).scores :=
    (renderPass_quiz_fields ok (handle s e)).2.2.2.1
  rw [ha, hs]
  cases e with
  | rerender => exact Or.inl ⟨rfl, rfl⟩
  | startQuiz qs =>
    simp only [handle]
    split
    · split
      · exact Or.inl ⟨rfl, rfl⟩
      · exact Or.inr (Or.inr ⟨rfl, rfl⟩)
    · exact Or.inl ⟨rfl, rfl⟩
  | selectAnswer opt =>
    simp only [handle]
    split
    · split
      · split
        · exact Or.inr (Or.inl ⟨opt, _, by split <;> simp, rfl, rfl⟩)
        · exact Or.inl ⟨rfl, rfl⟩
      · exact Or.inl ⟨rfl, rfl⟩
    · exact Or.inl ⟨rfl, rfl⟩
  | nextQuestion =>
    simp only [handle]
    split <;> exact Or.inl ⟨rfl, rfl⟩
  | continueNext =>
    simp only [handle]
    split
    · exact Or.inr (Or.inr ⟨rfl, rfl⟩)
    · exact Or.inl ⟨rfl, rfl⟩
  | retryQuiz qs =>
    simp only [handle]
    split
    · exact Or.inr (Or.inr ⟨rfl, rfl⟩)
    · exact Or.inl ⟨rfl, rfl⟩
  | summaryButton => exact Or.inl ⟨rfl, rfl⟩
  | sendChat msg =>
    simp only [handle]
    split <;> exact Or.inl ⟨rfl, rfl⟩
  | gptRespond result =>
    simp only [handle]
    split <;> exact Or.inl ⟨rfl, rfl⟩

/-- Every recorded score is 0 or 1 in every reachable state. -/
theorem reachable_scores_binary (s : QuizState) (h : Reachable s) :
    ∀ x ∈ s.scores, x = 0 ∨ x = 1 := by
  induction h with
  | init m u log => simp [initState]
  | next t ok e ht ih =>
    rcases step_append_or_reset ok t e with h1 | ⟨a, n, hn, _, hsc⟩ | ⟨_, hsc⟩
    · rw [h1.2]; exact ih
    · rw [hsc]
      intro x hx
      rcases List.mem_append.1 hx with hx | hx
      · exact ih x hx
      · rw [List.mem_singleton.1 hx]; exact hn
    · rw [hsc]; simp

/-- Over lists of zeros and ones, the sum equals the number of ones. -/
theorem sum_eq_count_one (l : List Nat) (h : ∀ x ∈ l, x = 0 ∨ x = 1) :
    l.sum = l.count 1 := by
  induction l with
  | nil => rfl
  | cons x xs ih =>
    have hx := h x (List.mem_cons_self x xs)
    have ihh := ih fun y hy => h y (List.mem_cons_of_mem x hy)
    rcases hx with rfl | rfl <;> simp [List.count_cons, ihh] <;> omega

/-! ## Claim C3 -/

/-- C3 counterexample: at the question-generation call site the model
call (line 85) sits outside the `try` block that begins at line 94, so
an API failure is NOT caught locally: `generate_questions_from_text`
propagates the exception, contradicting the claim that a failure at
either call site never propagates out of the handling code. -/
theorem C3_counterexample :
    generate_questions_from_text (Except.error "APIConnectionError") =
      Except.error "APIConnectionError" := rfl

/-- C3 (amended): a model-call failure at the chat advisory call site
(lines 494-501) is caught and surfaced as the inline warning reply; at
the question-generation call site the model call is outside the `try`
block, which guards only the JSON parse, so the failure propagates out
of `generate_questions_from_text` uncaught. -/
theorem C3_amended_model_failure_sites :
    (∀ e, gpt_reply (Except.error e) = "⚠️ GPT failed to respond: " ++ e) ∧
    (∀ e, generate_questions_from_text (Except.error e) = Except.error e) ∧
    (∀ e, propagatesError (generate_questions_from_text (Except.error e)) = true) := by
  refine ⟨fun e => rfl, fun e => rfl, fun e => rfl⟩

/-! ## Claim C4 -/

/-- C4: `generate_questions_from_text` sanitizes the model text by
stripping a leading/trailing code-fence marker, normalizing curly
quotes, and removing trailing commas before a closing bracket or
brace, then parses it as JSON; a string that still fails to parse
yields an empty array with the sanitized raw text surfaced as a
diagnostic, and the parse failure never escapes the function.  The
concrete conjuncts exercise the pipeline: a fenced, curly-quoted array
with trailing commas before both a brace and a bracket sanitizes to
valid JSON and parses, while plain prose yields the empty-array
outcome. -/
theorem C4_sanitize_then_parse_with_recovery :
    (∀ content, ∃ out, generate_questions_from_text (Except.ok content) = Except.ok out) ∧
    (∀ content, json_loads (sanitize_model_output content) = none →
      generate_questions_from_text (Except.ok content) =
        Except.ok ⟨Json.arr [], some (sanitize_model_output content)⟩) ∧
    (∀ content v, json_loads (sanitize_model_output content) = some v →
      generate_questions_from_text (Except.ok content) = Except.ok ⟨v, none⟩) ∧
    (sanitize_model_output
        "```json\n[\x7b“question”: “Q1?”, “answer”: “A”,\x7d,]\n```"
      = "[\x7b\"question\": \"Q1?\", \"answer\": \"A\"\x7d]\n") ∧
    (json_loads "[\x7b\"question\": \"Q1?\", \"answer\": \"A\"\x7d]\n" =
      some (Json.arr [Json.obj [("question", Json.str "Q1?"), ("answer", Json.str "A")]])) ∧
    (generate_questions_from_text (Except.ok "This is not a JSON array") =
      Except.ok ⟨Json.arr [], some "This is not a JSON array"⟩) := by
  refine ⟨fun content => ?_, fun content h => ?_, fun content v h => ?_, rfl, rfl, rfl⟩
  · cases h : json_loads (sanitize_model_output content) with
    | none =>
      exact ⟨⟨Json.arr [], some (sanitize_model_output content)⟩,
             by simp [generate_questions_from_text, h]⟩
    | some v => exact ⟨⟨v, none⟩, by simp [generate_questions_from_text, h]⟩
  · simp [generate_questions_from_text, h]
  · simp [generate_questions_from_text, h]

/-- C4 witness: the recovery branch at the concrete non-JSON input. -/
theorem C4_sanitize_then_parse_with_recovery_witness :
    json_loads (sanitize_model_output "just prose, no array") = none ∧
    generate_questions_from_text (Except.ok "just prose, no array") =
      Except.ok ⟨Json.arr [], some (sanitize_model_output "just prose, no array")⟩ :=
  ⟨rfl, C4_sanitize_then_parse_with_recovery.2.1 "just prose, no array" rfl⟩

/-! ## Concrete fixtures for witnesses and counterexamples -/

def tfItemT : QuizItem :=
  ⟨"The Earth orbits the Sun.", "true_false", ["True", "False"], "True", some 1⟩

def tfItemF : QuizItem :=
  ⟨"The Sun orbits the Earth.", "true_false", ["True", "False"], "False", some 2⟩

/-! ## Claim C5 -/

/-- A state at the moment the completion branch of lines 359-362 is
reached: the quiz is ready, feedback for the second item is showing,
and the user scored exactly `PASSING_SCORE` points. -/
def c5_state : QuizState :=
  { initState "module-a" "alice" [] with
    questions := [tfItemT, tfItemF], current_q := 1,
    answers := ["True", "True"], scores := [1, 0], feedback_shown := true }

/-- C5: when the completion branch of lines 359-362 runs (quiz ready,
feedback showing, `current_q` not below `QUESTIONS_PER_SESSION - 1`),
`passed_quiz` is set to true exactly when `sum(scores)` is at least
`PASSING_SCORE` (the comparison is `>=`, so the boundary is
inclusive); and in every reachable state the sum of `scores` equals
the number of 1 entries, so the total is the count of correct
answers. -/
theorem C5_passed_iff_threshold :
    (∀ s, quizReady s = true → s.feedback_shown = true →
      ¬(s.current_q < QUESTIONS_PER_SESSION - 1) →
      (completionAssign s).quiz_complete = true ∧
      ((completionAssign s).passed_quiz = true ↔ PASSING_SCORE ≤ s.scores.sum)) ∧
    (∀ s, Reachable s → s.scores.sum = s.scores.count 1) := by
  constructor
  · intro s h1 h2 h3
    simp [completionAssign, h1, h2, h3]
  · intro s hs
    exact sum_eq_count_one _ (reachable_scores_binary s hs)

/-- The render pass decides `quiz_complete` exactly as the
completion assignment of lines 359-362 does. -/
theorem renderPass_quiz_complete (ok : Bool) (s : QuizState) :
    (renderPass ok s).quiz_complete = (completionAssign s).quiz_complete := by
  unfold renderPass
  rw [(autoPromptSection_preserves _).2.2.2.2.2.1, (saveSection_preserves _ _).2.2.2.2.2.1]

/-- C5 witness: at `c5_state` the score total is exactly the passing
threshold and the quiz is marked passed (inclusive boundary), and in
the fresh session the sum/count identity holds. -/
theorem C5_passed_iff_threshold_witness :
    (c5_state.scores.sum = PASSING_SCORE ∧
     (completionAssign c5_state).quiz_complete = true ∧
     ((completionAssign c5_state).passed_quiz = true ↔ PASSING_SCORE ≤ c5_state.scores.sum)) ∧
    (initState "m" "u" []).scores.sum = (initState "m" "u" []).scores.count 1 :=
  ⟨⟨rfl, C5_passed_iff_threshold.1 c5_state rfl rfl (by decide)⟩,
   C5_passed_iff_threshold.2 _ (Reachable.init "m" "u" [])⟩

/-! ## Claim C1 -/

/-- A generated set of three items, answered through the session: the
completion branch fires at `current_q = QUESTIONS_PER_SESSION - 1`,
not at the end of the item list. -/
def c1_overlong_run : QuizState :=
  step true (step true (step true (step true (initState "module-a" "alice" [])
    (Event.startQuiz [tfItemT, tfItemF, tfItemT])) (Event.selectAnswer "True"))
    Event.nextQuestion) (Event.selectAnswer "True")

/-- C1 counterexample: with a successfully generated item set of size
N = 3, the machine enters the Complete state after only
`QUESTIONS_PER_SESSION = 2` answers, so upon completion
`len(answers) = len(scores) = 2 ≠ N`, refuting the claim for
arbitrary N. -/
theorem C1_counterexample :
    [tfItemT, tfItemF, tfItemT].length = 3 ∧
    c1_overlong_run.quiz_complete = true ∧
    c1_overlong_run.answers.length = 2 ∧
    c1_overlong_run.scores.length = 2 := ⟨rfl, rfl, rfl, rfl⟩

/-- C1 (amended): for every successfully generated item set of size
exactly `QUESTIONS_PER_SESSION`, the machine presents the items in
index order starting at `current_q = 0`, appends exactly one answer
and one score per item, and upon entering the Complete state
`len(answers) = len(scores) = QUESTIONS_PER_SESSION`. -/
theorem C1_amended_exact_size_session (q0 q1 : QuizItem) (a0 a1 m u : String)
    (log : List ProgressEntry) (ok1 ok2 ok3 ok4 : Bool)
    (h0 : a0 ∈ q0.options) (h1 : a1 ∈ q1.options) :
    let s1 := step ok1 (initState m u log) (Event.startQuiz [q0, q1])
    let s2 := step ok2 s1 (Event.selectAnswer a0)
    let s3 := step ok3 s2 Event.nextQuestion
    let s4 := step ok4 s3 (Event.selectAnswer a1)
    [q0, q1].length = QUESTIONS_PER_SESSION ∧
    s1.current_q = 0 ∧ s1.questions[s1.current_q]? = some q0 ∧
    s1.answers = [] ∧ s1.scores = [] ∧
    s2.answers = [a0] ∧ s2.current_q = 0 ∧ s2.feedback_shown = true ∧
    s3.current_q = 1 ∧ s3.questions[s3.current_q]? = some q1 ∧
    s4.quiz_complete = true ∧ s4.answers = [a0, a1] ∧
    s4.scores = [if evaluate_answer a0 q0.answer then 1 else 0,
                 if evaluate_answer a1 q1.answer then 1 else 0] ∧
    s4.answers.length = QUESTIONS_PER_SESSION ∧
    s4.scores.length = QUESTIONS_PER_SESSION := by
  intro s1 s2 s3 s4
  have e1 : s1 = { initState m u log with
                   questions := [q0, q1] } := rfl
  have e2 : s2 = { initState m u log with
                   questions := [q0, q1],
                   answers := [a0],
                   scores := [if evaluate_answer a0 q0.answer then 1 else 0],
                   last_correct := some (evaluate_answer a0 q0.answer),
                   feedback_shown := true } := by
    show step ok2 s1 (Event.selectAnswer a0) = _
    rw [e1]
    simp [step, handle, quizReady, renderPass, completionAssign, saveSection,
          autoPromptSection, h0, initState, QUESTIONS_PER_SESSION]
  have e3 : s3 = { initState m u log with
                   questions := [q0, q1],
                   current_q := 1,
                   answers := [a0],
                   scores := [if evaluate_answer a0 q0.answer then 1 else 0] } := by
    show step ok3 s2 Event.nextQuestion = _
    rw [e2]
    simp [step, handle, quizReady, renderPass, completionAssign, saveSection,
          autoPromptSection, initState, QUESTIONS_PER_SESSION]
  have e4 : s4 = renderPass ok4 { initState m u log with
                   questions := [q0, q1],
                   current_q := 1,
                   answers := [a0, a1],
                   scores := [if evaluate_answer a0 q0.answer then 1 else 0,
                              if evaluate_answer a1 q1.answer then 1 else 0],
                   last_correct := some (evaluate_answer a1 q1.answer),
                   feedback_shown := true } := by
    show step ok4 s3 (Event.selectAnswer a1) = _
    rw [e3]
    simp [step, handle, quizReady, h1, initState, QUESTIONS_PER_SESSION]
  rw [e1, e2, e3, e4]
  refine ⟨rfl, rfl, rfl, rfl, rfl, rfl, rfl, rfl, rfl, rfl, ?_, ?_, ?_, ?_, ?_⟩
  · rw [renderPass_quiz_complete]; rfl
  · rw [(renderPass_quiz_fields _ _).2.2.1]
  · rw [(renderPass_quiz_fields _ _).2.2.2.1]
  · rw [(renderPass_quiz_fields _ _).2.2.1]; rfl
  · rw [(renderPass_quiz_fields _ _).2.2.2.1]; rfl

/-- C1 witness: the amended run at a concrete two-item set. -/
theorem C1_amended_exact_size_session_witness :
    let s1 := step true (initState "module-a" "alice" [])
      (Event.startQuiz [tfItemT, tfItemF])
    let s2 := step true s1 (Event.selectAnswer "True")
    let s3 := step true s2 Event.nextQuestion
    let s4 := step true s3 (Event.selectAnswer "False")
    [tfItemT, tfItemF].length = QUESTIONS_PER_SESSION ∧
    s1.current_q = 0 ∧ s1.questions[s1.current_q]? = some tfItemT ∧
    s1.answers = [] ∧ s1.scores = [] ∧
    s2.answers = ["True"] ∧ s2.current_q = 0 ∧ s2.feedback_shown = true ∧
    s3.current_q = 1 ∧ s3.questions[s3.current_q]? = some tfItemF ∧
    s4.quiz_complete = true ∧ s4.answers = ["True", "False"] ∧
    s4.scores = [if evaluate_answer "True" tfItemT.answer then 1 else 0,
                 if evaluate_answer "False" tfItemF.answer then 1 else 0] ∧
    s4.answers.length = QUESTIONS_PER_SESSION ∧
    s4.scores.length = QUESTIONS_PER_SESSION :=
  C1_amended_exact_size_session tfItemT tfItemF "True" "False" "module-a" "alice" []
    true true true true (by decide) (by decide)

/-! ## Claim C10 -/

/-- Lines 359-362 are guarded by `quiz_ready`; when the quiz is not
ready the completion assignment does nothing. -/
theorem completionAssign_of_not_ready (s : QuizState) (h : quizReady s = false) :
    completionAssign s = s := by
  unfold completionAssign
  rw [h]
  simp

/-- A stuck quiz — items present, `current_q` past the end of the item
list, completion never assigned — stays stuck under every event: no
handler guard can fire (`Start Quiz` requires an empty item list,
`Retry`/`Continue` require a completed quiz, the answer and
next-question widgets require `quiz_ready`), and the completion branch
itself requires `quiz_ready`. -/
theorem stuck_preserved (ok : Bool) (s : QuizState) (e : Event)
    (hne : s.questions.isEmpty = false) (hqr : quizReady s = false)
    (hc : s.quiz_complete = false) :
    (step ok s e).questions.isEmpty = false ∧ quizReady (step ok s e) = false ∧
    (step ok s e).quiz_complete = false := by
  have hq : (step ok s e).questions = (handle s e).questions :=
    (renderPass_quiz_fields _ _).1
  have hcq : (step ok s e).current_q = (handle s e).current_q :=
    (renderPass_quiz_fields _ _).2.1
  have hqc : (step ok s e).quiz_complete = (completionAssign (handle s e)).quiz_complete :=
    renderPass_quiz_complete ok (handle s e)
  have hh : (handle s e).questions = s.questions ∧ (handle s e).current_q = s.current_q ∧
      (handle s e).quiz_complete = s.quiz_complete := by
    cases e with
    | rerender => exact ⟨rfl, rfl, rfl⟩
    | startQuiz qs => simp [handle, hne]
    | selectAnswer opt => simp [handle, hqr]
    | nextQuestion => simp [handle, hqr]
    | continueNext => simp [handle, hc]
    | retryQuiz qs => simp [handle, hc]
    | summaryButton => exact ⟨rfl, rfl, rfl⟩
    | sendChat msg => simp only [handle]; split <;> exact ⟨rfl, rfl, rfl⟩
    | gptRespond result => simp only [handle]; split <;> exact ⟨rfl, rfl, rfl⟩
  have hready : quizReady (handle s e) = false := by
    unfold quizReady
    rw [hh.1, hh.2.1]
    unfold quizReady at hqr
    exact hqr
  refine ⟨?_, ?_, ?_⟩
  · rw [hq, hh.1]; exact hne
  · unfold quizReady
    rw [hq, hcq, hh.1, hh.2.1]
    unfold quizReady at hqr
    exact hqr
  · rw [hqc, completionAssign_of_not_ready _ hready, hh.2.2]
    exact hc

/-- C10: if question generation returns a non-empty item list shorter
than `QUESTIONS_PER_SESSION` (with the constant 2, a single item),
then after the user answers the last item the Next Question button is
offered (its guard `current_q < QUESTIONS_PER_SESSION - 1` holds);
pressing it leaves `current_q` equal to the list length, the question
view is gone (`quiz_ready` false) and `quiz_complete` is false — and
no further event can ever set `quiz_complete` for that quiz, because
completion is triggered only at `current_q = QUESTIONS_PER_SESSION - 1`
under `quiz_ready`, never at the end of the actual list. -/
theorem C10_short_set_never_completes (q : QuizItem) (opt m u : String)
    (log : List ProgressEntry) (hopt : opt ∈ q.options) :
    let s1 := step true (initState m u log) (Event.startQuiz [q])
    let s2 := step true s1 (Event.selectAnswer opt)
    let s3 := step true s2 Event.nextQuestion
    ([q].length < QUESTIONS_PER_SESSION ∧
     quizReady s2 = true ∧ s2.feedback_shown = true ∧
     s2.current_q < QUESTIONS_PER_SESSION - 1 ∧
     s3.current_q = [q].length ∧ quizReady s3 = false ∧ s3.quiz_complete = false) ∧
    (∀ s ok e, s.questions.isEmpty = false → quizReady s = false →
      s.quiz_complete = false →
      (step ok s e).questions.isEmpty = false ∧ quizReady (step ok s e) = false ∧
      (step ok s e).quiz_complete = false) := by
  intro s1 s2 s3
  have e1 : s1 = { initState m u log with
                   questions := [q] } := rfl
  have e2 : s2 = { initState m u log with
                   questions := [q],
                   answers := [opt],
                   scores := [if evaluate_answer opt q.answer then 1 else 0],
                   last_correct := some (evaluate_answer opt q.answer),
                   feedback_shown := true } := by
    show step true s1 (Event.selectAnswer opt) = _
    rw [e1]
    simp [step, handle, quizReady, renderPass, completionAssign, saveSection,
          autoPromptSection, hopt, initState, QUESTIONS_PER_SESSION]
  have e3 : s3 = { initState m u log with
                   questions := [q],
                   current_q := 1,
                   answers := [opt],
                   scores := [if evaluate_answer opt q.answer then 1 else 0] } := by
    show step true s2 Event.nextQuestion = _
    rw [e2]
    simp [step, handle, quizReady, renderPass, completionAssign, saveSection,
          autoPromptSection, initState, QUESTIONS_PER_SESSION]
  refine ⟨⟨Nat.one_lt_two, by rw [e2]; rfl, by rw [e2], by rw [e2]; exact Nat.zero_lt_one,
          by rw [e3]; rfl, by rw [e3]; rfl, by rw [e3]; rfl⟩,
         fun s ok e h1 h2 h3 => stuck_preserved ok s e h1 h2 h3⟩

/-- C10 witness: the concrete one-item quiz and the stuck state it
reaches. -/
theorem C10_short_set_never_completes_witness :
    let s1 := step true (initState "module-a" "alice" [])
      (Event.startQuiz [tfItemT])
    let s2 := step true s1 (Event.selectAnswer "True")
    let s3 := step true s2 Event.nextQuestion
    ([tfItemT].length < QUESTIONS_PER_SESSION ∧
     quizReady s2 = true ∧ s2.feedback_shown = true ∧
     s2.current_q < QUESTIONS_PER_SESSION - 1 ∧
     s3.current_q = [tfItemT].length ∧ quizReady s3 = false ∧
     s3.quiz_complete = false) ∧
    (∀ s ok e, s.questions.isEmpty = false → quizReady s = false →
      s.quiz_complete = false →
      (step ok s e).questions.isEmpty = false ∧ quizReady (step ok s e) = false ∧
      (step ok s e).quiz_complete = false) :=
  C10_short_set_never_completes tfItemT "True" "module-a" "alice" [] (by decide)

/-! ## Claim C2 -/

/-- Re-executions of the script with a completed quiz on screen:
the completion view re-rendered once per list element, each with its
own persistence outcome. -/
def rerenders (oks : List Bool) (s : QuizState) : QuizState :=
  oks.foldl (fun t ok => step ok t Event.rerender) s

theorem rerenders_cons (ok : Bool) (oks : List Bool) (s : QuizState) :
    rerenders (ok :: oks) s = rerenders oks (step ok s Event.rerender) := rfl

theorem auto_progress_saved (t : QuizState) :
    (autoPromptSection t).progress_saved = t.progress_saved :=
  (autoPromptSection_preserves t).2.2.2.2.2.2.2.1

theorem auto_progress_log (t : QuizState) :
    (autoPromptSection t).progress_log = t.progress_log :=
  (autoPromptSection_preserves t).2.2.2.2.2.2.2.2.1

theorem auto_save_invocations (t : QuizState) :
    (autoPromptSection t).save_invocations = t.save_invocations :=
  (autoPromptSection_preserves t).2.2.2.2.2.2.2.2.2

theorem completion_progress_saved (s : QuizState) :
    (completionAssign s).progress_saved = s.progress_saved :=
  (completionAssign_preserves s).2.2.2.2.2.1

theorem completion_progress_log (s : QuizState) :
    (completionAssign s).progress_log = s.progress_log :=
  (completionAssign_preserves s).2.2.2.2.2.2.1

theorem completion_save_invocations (s : QuizState) :
    (completionAssign s).save_invocations = s.save_invocations :=
  (completionAssign_preserves s).2.2.2.2.2.2.2.1

/-- The completion assignment never changes the row that would be
saved. -/
theorem completion_entry (s : QuizState) :
    progressEntry (completionAssign s) = progressEntry s := by
  unfold completionAssign
  split <;> rfl

/-- The completion assignment never clears `quiz_complete`. -/
theorem completion_keeps_complete (s : QuizState) (h : s.quiz_complete = true) :
    (completionAssign s).quiz_complete = true := by
  unfold completionAssign
  split
  · rfl
  · exact h

/-- Once the one-shot flag is set, the save section does nothing. -/
theorem saveSection_of_saved (ok : Bool) (t : QuizState)
    (h : t.progress_saved = true) : saveSection ok t = t := by
  unfold saveSection
  rw [h]
  simp

/-- In one save section the log and flag either stay put or one row is
appended with the flag set. -/
theorem saveSection_fields (ok : Bool) (t : QuizState) :
    ((saveSection ok t).progress_log = t.progress_log ∧
     (saveSection ok t).progress_saved = t.progress_saved) ∨
    ((saveSection ok t).progress_log = t.progress_log ++ [progressEntry t] ∧
     (saveSection ok t).progress_saved = true) := by
  unfold saveSection
  split
  · split
    · right; exact ⟨rfl, rfl⟩
    · left; exact ⟨rfl, rfl⟩
  · left; exact ⟨rfl, rfl⟩

/-- A re-render of a state whose progress is already recorded invokes
no save and leaves the log untouched. -/
theorem rerender_saved_frozen (ok : Bool) (s : QuizState)
    (h : s.progress_saved = true) :
    (step ok s Event.rerender).progress_saved = true ∧
    (step ok s Event.rerender).progress_log = s.progress_log ∧
    (step ok s Event.rerender).save_invocations = s.save_invocations := by
  have h1 : saveSection ok (completionAssign s) = completionAssign s :=
    saveSection_of_saved ok _ (by rw [completion_progress_saved]; exact h)
  have hstep : step ok s Event.rerender = autoPromptSection (completionAssign s) := by
    show autoPromptSection (saveSection ok (completionAssign s)) = _
    rw [h1]
  rw [hstep, auto_progress_saved, auto_progress_log, auto_save_invocations,
      completion_progress_saved, completion_progress_log, completion_save_invocations]
  exact ⟨h, rfl, rfl⟩

/-- Iterated form of `rerender_saved_frozen`. -/
theorem rerenders_frozen (oks : List Bool) (s : QuizState)
    (h : s.progress_saved = true) :
    (rerenders oks s).progress_saved = true ∧
    (rerenders oks s).progress_log = s.progress_log ∧
    (rerenders oks s).save_invocations = s.save_invocations := by
  induction oks generalizing s with
  | nil => exact ⟨h, rfl, rfl⟩
  | cons ok rest ih =>
    have hf := rerender_saved_frozen ok s h
    have hr := ih (step ok s Event.rerender) hf.1
    rw [rerenders_cons]
    exact ⟨hr.1, by rw [hr.2.1, hf.2.1], by rw [hr.2.2, hf.2.2]⟩

/-- One re-render either leaves the log and flag untouched or appends
the current row and sets the flag. -/
theorem rerender_log_cases (ok : Bool) (s : QuizState) :
    ((step ok s Event.rerender).progress_log = s.progress_log ∧
     (step ok s Event.rerender).progress_saved = s.progress_saved) ∨
    ((step ok s Event.rerender).progress_log = s.progress_log ++ [progressEntry s] ∧
     (step ok s Event.rerender).progress_saved = true) := by
  have hlog : (step ok s Event.rerender).progress_log =
      (saveSection ok (completionAssign s)).progress_log :=
    auto_progress_log (saveSection ok (completionAssign s))
  have hsaved : (step ok s Event.rerender).progress_saved =
      (saveSection ok (completionAssign s)).progress_saved :=
    auto_progress_saved (saveSection ok (completionAssign s))
  rcases saveSection_fields ok (completionAssign s) with ⟨h1, h2⟩ | ⟨h1, h2⟩
  · left
    rw [hlog, hsaved, h1, h2, completion_progress_log, completion_progress_saved]
    exact ⟨rfl, rfl⟩
  · right
    rw [hlog, hsaved, h1, h2, completion_progress_log, completion_entry]
    exact ⟨rfl, rfl⟩

/-- Across any number of re-renders the progress log grows by at most
one row. -/
theorem rerenders_log_bound (oks : List Bool) (s : QuizState) :
    (rerenders oks s).progress_log.length ≤ s.progress_log.length + 1 := by
  induction oks generalizing s with
  | nil => exact Nat.le_succ _
  | cons ok rest ih =>
    rw [rerenders_cons]
    rcases rerender_log_cases ok s with ⟨h1, _⟩ | ⟨h1, h2⟩
    · have := ih (step ok s Event.rerender)
      rw [h1] at this
      exact this
    · have hf := rerenders_frozen rest (step ok s Event.rerender) h2
      rw [hf.2.1, h1, List.length_append]
      simp

/-- A completed, failed-save run: the quiz finishes while the
persistence layer raises (`saveOk = false`), then the completion view
is re-rendered once with persistence restored. -/
def c2_complete_save_failed : QuizState :=
  step false (step true (step true (step true (initState "module-a" "alice" [])
    (Event.startQuiz [tfItemT, tfItemF])) (Event.selectAnswer "True"))
    Event.nextQuestion) (Event.selectAnswer "True")

def c2_after_rerender : QuizState :=
  step true c2_complete_save_failed Event.rerender

/-- C2 counterexample: the first save attempt raises, so
`progress_saved` stays false and the next re-render of the completion
view invokes `save_progress_global` a second time for the same
completion — the ghost invocation counter reaches 2, refuting
"invoked at most once no matter how many times the completion view is
re-rendered". -/
theorem C2_counterexample :
    c2_complete_save_failed.quiz_complete = true ∧
    c2_complete_save_failed.save_invocations = 1 ∧
    c2_complete_save_failed.progress_saved = false ∧
    c2_after_rerender.save_invocations = 2 ∧
    c2_after_rerender.progress_log.length = 1 := ⟨rfl, rfl, rfl, rfl, rfl⟩

/-- C2 (amended): at most one SUCCESSFUL `save_progress_global`
execution happens per completion: across any sequence of completion
re-renders the progress log grows by at most one row, and once
`progress_saved` is set no further invocation occurs; but a failed
save leaves the flag clear and is retried on the next render, so the
number of invocations (as opposed to written rows) can exceed one. -/
theorem C2_amended_one_successful_save :
    (∀ s oks, (rerenders oks s).progress_log.length ≤ s.progress_log.length + 1) ∧
    (∀ s oks, s.progress_saved = true →
      (rerenders oks s).progress_log = s.progress_log ∧
      (rerenders oks s).save_invocations = s.save_invocations) ∧
    (∀ s, s.quiz_complete = true → s.progress_saved = false →
      (step true s Event.rerender).progress_saved = true ∧
      (step true s Event.rerender).progress_log = s.progress_log ++ [progressEntry s] ∧
      (step true s Event.rerender).save_invocations = s.save_invocations + 1) := by
  refine ⟨fun s oks => rerenders_log_bound oks s,
          fun s oks h => ⟨(rerenders_frozen oks s h).2.1, (rerenders_frozen oks s h).2.2⟩,
          fun s hqc hns => ?_⟩
  have hguard : ((completionAssign s).quiz_complete &&
      !(completionAssign s).progress_saved) = true := by
    rw [completion_keeps_complete s hqc, completion_progress_saved, hns]
    rfl
  have hsave : saveSection true (completionAssign s) =
      { completionAssign s with
        save_invocations := (completionAssign s).save_invocations + 1,
        progress_log := (completionAssign s).progress_log ++
          [progressEntry { completionAssign s with
            save_invocations := (completionAssign s).save_invocations + 1 }],
        progress_saved := true } := by
    unfold saveSection
    rw [hguard]
    simp
  have hstep : (step true s Event.rerender).progress_saved =
        (saveSection true (completionAssign s)).progress_saved ∧
      (step true s Event.rerender).progress_log =
        (saveSection true (completionAssign s)).progress_log ∧
      (step true s Event.rerender).save_invocations =
        (saveSection true (completionAssign s)).save_invocations :=
    ⟨auto_progress_saved _, auto_progress_log _, auto_save_invocations _⟩
  rw [hstep.1, hstep.2.1, hstep.2.2, hsave]
  refine ⟨rfl, ?_, ?_⟩
  · show (completionAssign s).progress_log ++
        [progressEntry { completionAssign s with
          save_invocations := (completionAssign s).save_invocations + 1 }] =
      s.progress_log ++ [progressEntry s]
    rw [completion_progress_log]
    have : progressEntry { completionAssign s with
        save_invocations := (completionAssign s).save_invocations + 1 } =
        progressEntry s := by
      rw [show progressEntry { completionAssign s with
            save_invocations := (completionAssign s).save_invocations + 1 } =
          progressEntry (completionAssign s) from rfl, completion_entry]
    rw [this]
  · show (completionAssign s).save_invocations + 1 = s.save_invocations + 1
    rw [completion_save_invocations]

/-- C2 witness: the amended guarantees at the concrete failed-save
completion state and at a saved state. -/
theorem C2_amended_one_successful_save_witness :
    ((rerenders [true, false, true] c2_complete_save_failed).progress_log.length ≤
      c2_complete_save_failed.progress_log.length + 1) ∧
    (c2_complete_save_failed.quiz_complete = true ∧
     c2_complete_save_failed.progress_saved = false ∧
     ((step true c2_complete_save_failed Event.rerender).progress_saved = true ∧
      (step true c2_complete_save_failed Event.rerender).progress_log =
        c2_complete_save_failed.progress_log ++ [progressEntry c2_complete_save_failed] ∧
      (step true c2_complete_save_failed Event.rerender).save_invocations =
        c2_complete_save_failed.save_invocations + 1)) :=
  ⟨C2_amended_one_successful_save.1 c2_complete_save_failed [true, false, true],
   rfl, rfl, C2_amended_one_successful_save.2.2 c2_complete_save_failed rfl rfl⟩

/-! ## Chat-path helper lemmas -/

theorem save_chat (ok : Bool) (t : QuizState) :
    (saveSection ok t).chat_history = t.chat_history :=
  (saveSection_preserves ok t).2.2.2.2.2.2.2.1

theorem save_awaiting (ok : Bool) (t : QuizState) :
    (saveSection ok t).awaiting_gpt = t.awaiting_gpt :=
  (saveSection_preserves ok t).2.2.2.2.2.2.2.2.1

theorem save_last_prompt (ok : Bool) (t : QuizState) :
    (saveSection ok t).last_prompt = t.last_prompt :=
  (saveSection_preserves ok t).2.2.2.2.2.2.2.2.2.1

theorem save_auto (ok : Bool) (t : QuizState) :
    (saveSection ok t).auto_generated_prompt = t.auto_generated_prompt :=
  (saveSection_preserves ok t).2.2.2.2.2.2.2.2.2.2.1

theorem save_summary (ok : Bool) (t : QuizState) :
    (saveSection ok t).summary_generated = t.summary_generated :=
  (saveSection_preserves ok t).2.2.2.2.2.2.2.2.2.2.2

theorem completion_chat (s : QuizState) :
    (completionAssign s).chat_history = s.chat_history :=
  (completionAssign_preserves s).2.2.2.2.2.2.2.2.1

theorem completion_awaiting (s : QuizState) :
    (completionAssign s).awaiting_gpt = s.awaiting_gpt :=
  (completionAssign_preserves s).2.2.2.2.2.2.2.2.2.1

theorem completion_last_prompt (s : QuizState) :
    (completionAssign s).last_prompt = s.last_prompt :=
  (completionAssign_preserves s).2.2.2.2.2.2.2.2.2.2.1

theorem completion_auto (s : QuizState) :
    (completionAssign s).auto_generated_prompt = s.auto_generated_prompt :=
  (completionAssign_preserves s).2.2.2.2.2.2.2.2.2.2.2.1

theorem completion_summary (s : QuizState) :
    (completionAssign s).summary_generated = s.summary_generated :=
  (completionAssign_preserves s).2.2.2.2.2.2.2.2.2.2.2.2

/-- With no pending auto-generated prompt, lines 452-457 do nothing. -/
theorem autoPromptSection_id (t : QuizState)
    (h : t.auto_generated_prompt = none) : autoPromptSection t = t := by
  unfold autoPromptSection
  rw [h]

/-- With a pending auto-generated prompt, lines 452-457 pop it, append
it to the transcript as a user message and request a GPT round. -/
theorem autoPromptSection_fires (t : QuizState) (p : String)
    (h : t.auto_generated_prompt = some p) :
    autoPromptSection t = { t with
      auto_generated_prompt := none,
      last_prompt := some p,
      chat_history := t.chat_history ++ [(Role.user, p)],
      awaiting_gpt := true } := by
  unfold autoPromptSection
  rw [h]

/-- The full effect of one Module Summary button press: the canonical
summary question enters the transcript as a user message through the
ordinary chat path and a GPT round is requested; the
`summary_generated` flag is set. -/
theorem summary_button_effect (ok : Bool) (s : QuizState) :
    (step ok s Event.summaryButton).chat_history =
      s.chat_history ++ [(Role.user, summaryPrompt)] ∧
    (step ok s Event.summaryButton).awaiting_gpt = true ∧
    (step ok s Event.summaryButton).last_prompt = some summaryPrompt ∧
    (step ok s Event.summaryButton).summary_generated = true := by
  have hauto : (saveSection ok (completionAssign
      { s with auto_generated_prompt := some summaryPrompt,
               summary_generated := true })).auto_generated_prompt =
      some summaryPrompt := by
    rw [save_auto, completion_auto]
  have hstep : step ok s Event.summaryButton =
      autoPromptSection (saveSection ok (completionAssign
        { s with auto_generated_prompt := some summaryPrompt,
                 summary_generated := true })) := rfl
  rw [hstep, autoPromptSection_fires _ summaryPrompt hauto]
  refine ⟨?_, rfl, rfl, ?_⟩
  · show (saveSection ok (completionAssign
        { s with auto_generated_prompt := some summaryPrompt,
                 summary_generated := true })).chat_history ++
        [(Role.user, summaryPrompt)] =
      s.chat_history ++ [(Role.user, summaryPrompt)]
    rw [save_chat, completion_chat]
  · show (saveSection ok (completionAssign
        { s with auto_generated_prompt := some summaryPrompt,
                 summary_generated := true })).summary_generated = true
    rw [save_summary, completion_summary]

/-! ## Claim C7 -/

/-- Two Module Summary presses in one session, the first answered. -/
def c7_once : QuizState := step true (initState "module-a" "alice" []) Event.summaryButton

def c7_replied : QuizState := step true c7_once (Event.gptRespond (Except.ok "the summary"))

def c7_twice : QuizState := step true c7_replied Event.summaryButton

/-- C7 counterexample: `summary_generated` is already set after the
first press, yet a second press fires the canonical question into the
transcript again — the flag is written (line 273) but never read, so
the action is not gated to at most once per session. -/
theorem C7_counterexample :
    c7_replied.summary_generated = true ∧
    c7_twice.chat_history =
      [(Role.user, summaryPrompt), (Role.assistant, "the summary"),
       (Role.user, summaryPrompt)] ∧
    c7_twice.awaiting_gpt = true := ⟨rfl, rfl, rfl⟩

/-- C7 (amended): the Module Summary action submits the fixed
canonical question through the same chat path as a user message
(transcript append, `last_prompt`, `awaiting_gpt`), and the press sets
the `summary_generated` flag — but the flag is never consulted, so the
action fires on every press, even when the flag is already set. -/
theorem C7_amended_summary_not_gated :
    (∀ s ok,
      (step ok s Event.summaryButton).chat_history =
        s.chat_history ++ [(Role.user, summaryPrompt)] ∧
      (step ok s Event.summaryButton).awaiting_gpt = true ∧
      (step ok s Event.summaryButton).last_prompt = some summaryPrompt ∧
      (step ok s Event.summaryButton).summary_generated = true) ∧
    (∀ s ok, s.summary_generated = true →
      (step ok s Event.summaryButton).chat_history =
        s.chat_history ++ [(Role.user, summaryPrompt)]) :=
  ⟨fun s ok => summary_button_effect ok s,
   fun s ok _ => (summary_button_effect ok s).1⟩

/-- C7 witness: the second press at a state whose flag is set. -/
theorem C7_amended_summary_not_gated_witness :
    c7_replied.summary_generated = true ∧
    (step true c7_replied Event.summaryButton).chat_history =
      c7_replied.chat_history ++ [(Role.user, summaryPrompt)] :=
  ⟨rfl, C7_amended_summary_not_gated.2 c7_replied true rfl⟩

/-! ## Claim C8 -/

/-- Lines 359-362 do nothing while no feedback is showing. -/
theorem completionAssign_of_no_feedback (s : QuizState)
    (h : s.feedback_shown = false) : completionAssign s = s := by
  unfold completionAssign
  rw [h]
  simp

/-- Lines 365-375 do nothing while the quiz is not complete. -/
theorem saveSection_of_not_complete (ok : Bool) (t : QuizState)
    (h : t.quiz_complete = false) : saveSection ok t = t := by
  unfold saveSection
  rw [h]
  simp

/-- No widget handler writes the progress file. -/
theorem handle_progress_log (s : QuizState) (e : Event) :
    (handle s e).progress_log = s.progress_log := by
  cases e <;> simp only [handle] <;> (repeat' split) <;> rfl

/-- In every interaction the progress log only ever gains rows at the
end; existing rows are never rewritten or removed. -/
theorem step_log_append_only (ok : Bool) (s : QuizState) (e : Event) :
    ∃ rows, (step ok s e).progress_log = s.progress_log ++ rows := by
  have hlog : (step ok s e).progress_log =
      (saveSection ok (completionAssign (handle s e))).progress_log :=
    auto_progress_log _
  rcases saveSection_fields ok (completionAssign (handle s e)) with ⟨h1, _⟩ | ⟨h1, _⟩
  · exact ⟨[], by
      rw [hlog, h1, completion_progress_log, handle_progress_log, List.append_nil]⟩
  · exact ⟨[progressEntry (completionAssign (handle s e))], by
      rw [hlog, h1, completion_progress_log, handle_progress_log]⟩

/-- C8: on a failed completed quiz, the Retry action installs the
freshly regenerated item set (generated from the same module document,
line 440-441), resets `current_q` to 0 and `answers`/`scores` to
empty, clears the completion and save flags — and leaves every
previously written ProgressEntry row unchanged; moreover no
interaction ever mutates the progress log other than by appending. -/
theorem C8_retry_resets_and_log_append_only :
    (∀ s ok qs, s.quiz_complete = true → s.passed_quiz = false →
      (step ok s (Event.retryQuiz qs)).questions = qs ∧
      (step ok s (Event.retryQuiz qs)).current_q = 0 ∧
      (step ok s (Event.retryQuiz qs)).answers = [] ∧
      (step ok s (Event.retryQuiz qs)).scores = [] ∧
      (step ok s (Event.retryQuiz qs)).quiz_complete = false ∧
      (step ok s (Event.retryQuiz qs)).progress_saved = false ∧
      (step ok s (Event.retryQuiz qs)).progress_log = s.progress_log) ∧
    (∀ s ok e, ∃ rows, (step ok s e).progress_log = s.progress_log ++ rows) := by
  refine ⟨fun s ok qs hc hp => ?_, fun s ok e => step_log_append_only ok s e⟩
  have hh : handle s (Event.retryQuiz qs) = { s with
      questions := qs, current_q := 0, answers := [], scores := [],
      feedback_shown := false, last_correct := none,
      quiz_complete := false, passed_quiz := false,
      progress_saved := false } := by
    simp [handle, hc, hp]
  have hstep : step ok s (Event.retryQuiz qs) =
      autoPromptSection (saveSection ok (completionAssign (handle s (Event.retryQuiz qs)))) := rfl
  rw [hstep, hh, completionAssign_of_no_feedback _ rfl, saveSection_of_not_complete _ _ rfl]
  have ha := autoPromptSection_preserves { s with
      questions := qs, current_q := 0, answers := [], scores := [],
      feedback_shown := false, last_correct := none,
      quiz_complete := false, passed_quiz := false,
      progress_saved := false }
  exact ⟨ha.1, ha.2.1, ha.2.2.1, ha.2.2.2.1, ha.2.2.2.2.2.1,
         ha.2.2.2.2.2.2.2.1, ha.2.2.2.2.2.2.2.2.1⟩

/-- A completed, failed quiz run (both answers wrong, pre-existing
progress rows in the file). -/
def c8_failed_quiz : QuizState :=
  step true (step true (step true (step true
    (initState "module-a" "alice" [⟨"module-0", "alice", 2⟩])
    (Event.startQuiz [tfItemT, tfItemF])) (Event.selectAnswer "False"))
    Event.nextQuestion) (Event.selectAnswer "True")

/-- C8 witness: retrying the concrete failed quiz resets the session
and leaves both the pre-existing row and the row written at completion
in place. -/
theorem C8_retry_resets_and_log_append_only_witness :
    (c8_failed_quiz.quiz_complete = true ∧ c8_failed_quiz.passed_quiz = false ∧
     c8_failed_quiz.progress_log.length = 2) ∧
    ((step true c8_failed_quiz (Event.retryQuiz [tfItemF])).questions = [tfItemF] ∧
     (step true c8_failed_quiz (Event.retryQuiz [tfItemF])).current_q = 0 ∧
     (step true c8_failed_quiz (Event.retryQuiz [tfItemF])).answers = [] ∧
     (step true c8_failed_quiz (Event.retryQuiz [tfItemF])).scores = [] ∧
     (step true c8_failed_quiz (Event.retryQuiz [tfItemF])).quiz_complete = false ∧
     (step true c8_failed_quiz (Event.retryQuiz [tfItemF])).progress_saved = false ∧
     (step true c8_failed_quiz (Event.retryQuiz [tfItemF])).progress_log =
       c8_failed_quiz.progress_log) :=
  ⟨⟨rfl, rfl, rfl⟩,
   C8_retry_resets_and_log_append_only.1 c8_failed_quiz true [tfItemF] rfl rfl⟩

/-! ## Claim C9 -/

/-- C9: sending a chat message and completing the model round appends
exactly the pair (user, stripped message) then (assistant, reply) at
the end of the transcript; every earlier entry is untouched and the
transcript is, in particular, not cleared by the send/reply path.
(The transcript-clearing block at lines 531-567 is dead code: the live
GPT handler at lines 477-507 clears `awaiting_gpt` and reruns before
it is reached.) -/
theorem C9_chat_round_appends_pair (s : QuizState) (msg : String)
    (result : Except String String) (ok1 ok2 : Bool)
    (hmsg : (pyStrip msg == "") = false)
    (hauto : s.auto_generated_prompt = none) :
    (step ok2 (step ok1 s (Event.sendChat msg)) (Event.gptRespond result)).chat_history =
      s.chat_history ++ [(Role.user, pyStrip msg), (Role.assistant, gpt_reply result)] := by
  have hh1 : handle s (Event.sendChat msg) = { s with
      last_prompt := some (pyStrip msg),
      chat_history := s.chat_history ++ [(Role.user, pyStrip msg)],
      awaiting_gpt := true } := by
    simp [handle, hmsg]
  have hs1 : step ok1 s (Event.sendChat msg) =
      saveSection ok1 (completionAssign (handle s (Event.sendChat msg))) := by
    show autoPromptSection _ = _
    refine autoPromptSection_id _ ?_
    rw [save_auto, completion_auto, hh1]
    exact hauto
  set t1 := saveSection ok1 (completionAssign (handle s (Event.sendChat msg))) with ht1
  have hchat1 : t1.chat_history = s.chat_history ++ [(Role.user, pyStrip msg)] := by
    rw [ht1, save_chat, completion_chat, hh1]
  have hawait1 : t1.awaiting_gpt = true := by
    rw [ht1, save_awaiting, completion_awaiting, hh1]
  have hlast1 : t1.last_prompt = some (pyStrip msg) := by
    rw [ht1, save_last_prompt, completion_last_prompt, hh1]
  have hauto1 : t1.auto_generated_prompt = none := by
    rw [ht1, save_auto, completion_auto, hh1]
    exact hauto
  have hguard : (t1.awaiting_gpt && promptPresent t1.last_prompt) = true := by
    rw [hawait1, hlast1]
    simp [promptPresent, hmsg]
  have hh2 : handle t1 (Event.gptRespond result) = { t1 with
      chat_history := t1.chat_history ++ [(Role.assistant, gpt_reply result)],
      awaiting_gpt := false, last_prompt := none } := by
    simp [handle, hguard]
  have hs2 : step ok2 t1 (Event.gptRespond result) =
      saveSection ok2 (completionAssign (handle t1 (Event.gptRespond result))) := by
    show autoPromptSection _ = _
    refine autoPromptSection_id _ ?_
    rw [save_auto, completion_auto, hh2]
    exact hauto1
  rw [hs1, hs2, save_chat, completion_chat, hh2]
  show t1.chat_history ++ [(Role.assistant, gpt_reply result)] = _
  rw [hchat1, List.append_assoc]
  rfl

/-- C9 witness: a concrete chat round, with surrounding whitespace
stripped from the message and a non-empty prior transcript. -/
theorem C9_chat_round_appends_pair_witness :
    (step true (step true (c7_replied) (Event.sendChat "  What are the main points?  "))
        (Event.gptRespond (Except.ok "Here are the main points."))).chat_history =
      c7_replied.chat_history ++
        [(Role.user, pyStrip "  What are the main points?  "),
         (Role.assistant, gpt_reply (Except.ok "Here are the main points."))] :=
  C9_chat_round_appends_pair c7_replied "  What are the main points?  "
    (Except.ok "Here are the main points.") true true rfl rfl

/-! ## Claim C6 -/

/-- One interaction preserves the bookkeeping invariant that ties the
answer/score lists to the question index and the feedback flag. -/
theorem inv_step (ok : Bool) (s : QuizState) (e : Event)
    (h1 : s.answers.length = s.scores.length)
    (h2 : s.answers.length = s.current_q + (if s.feedback_shown then 1 else 0)) :
    (step ok s e).answers.length = (step ok s e).scores.length ∧
    (step ok s e).answers.length =
      (step ok s e).current_q + (if (step ok s e).feedback_shown then 1 else 0) := by
  suffices h : (handle s e).answers.length = (handle s e).scores.length ∧
      (handle s e).answers.length =
        (handle s e).current_q + (if (handle s e).feedback_shown then 1 else 0) by
    have hf := renderPass_quiz_fields ok (handle s e)
    constructor
    · show (renderPass ok (handle s e)).answers.length =
        (renderPass ok (handle s e)).scores.length
      rw [hf.2.2.1, hf.2.2.2.1]
      exact h.1
    · show (renderPass ok (handle s e)).answers.length =
        (renderPass ok (handle s e)).current_q +
          (if (renderPass ok (handle s e)).feedback_shown then 1 else 0)
      rw [hf.2.2.1, hf.2.1, hf.2.2.2.2]
      exact h.2
  cases e with
  | rerender => exact ⟨h1, h2⟩
  | startQuiz qs =>
    simp only [handle]
    split
    · split
      · exact ⟨h1, h2⟩
      · simp
    · exact ⟨h1, h2⟩
  | selectAnswer opt =>
    simp only [handle]
    split
    · rename_i hg
      have hfb : s.feedback_shown = false := by
        simp only [Bool.and_eq_true, Bool.not_eq_true'] at hg
        exact hg.2
      split
      · split
        · rw [hfb] at h2
          simp at h2
          refine ⟨by simp [h1], by simp [h2]⟩
        · exact ⟨h1, h2⟩
      · exact ⟨h1, h2⟩
    · exact ⟨h1, h2⟩
  | nextQuestion =>
    simp only [handle]
    split
    · rename_i hg
      have hfb : s.feedback_shown = true := by
        simp only [Bool.and_eq_true] at hg
        exact hg.1.2
      rw [hfb] at h2
      simp at h2
      exact ⟨h1, by simp [h2]⟩
    · exact ⟨h1, h2⟩
  | continueNext =>
    simp only [handle]
    split
    · simp
    · exact ⟨h1, h2⟩
  | retryQuiz qs =>
    simp only [handle]
    split
    · simp
    · exact ⟨h1, h2⟩
  | summaryButton => exact ⟨h1, h2⟩
  | sendChat msg =>
    simp only [handle]
    split <;> exact ⟨h1, h2⟩
  | gptRespond result =>
    simp only [handle]
    split <;> exact ⟨h1, h2⟩

/-- The reachable state right after the first answer of a two-item
quiz: feedback is showing, one answer and one score are recorded, but
`current_q` is still 0. -/
def c6_after_answer : QuizState :=
  step true (step true (initState "module-a" "alice" [])
    (Event.startQuiz [tfItemT, tfItemF])) (Event.selectAnswer "True")

/-- C6 counterexample: a reachable in-progress state (items generated,
not complete) in which `len(answers) = len(scores) = 1` while
`currentIndex = 0` — the claimed invariant
`len(answers) == len(scores) == currentIndex` fails in the
showing-feedback half of a question, because the lists are appended
when the option is clicked but `current_q` advances only on Next
Question. -/
theorem C6_counterexample :
    Reachable c6_after_answer ∧
    c6_after_answer.questions.isEmpty = false ∧
    c6_after_answer.quiz_complete = false ∧
    c6_after_answer.answers.length = 1 ∧
    c6_after_answer.scores.length = 1 ∧
    c6_after_answer.current_q = 0 :=
  ⟨Reachable.next _ true (Event.selectAnswer "True")
    (Reachable.next _ true (Event.startQuiz [tfItemT, tfItemF])
      (Reachable.init "module-a" "alice" [])),
   rfl, rfl, rfl, rfl, rfl⟩

/-- C6 (amended): in every reachable state,
`len(answers) = len(scores)`, and both equal `currentIndex` while
awaiting an answer and `currentIndex + 1` while feedback for the
current item is shown; moreover each interaction changes the two lists
only by appending exactly one entry to each (the answer given and its
0/1 score, recorded once per question when an option is clicked) or by
resetting both to empty when a fresh question set is installed — they
are never otherwise mutated. -/
theorem C6_amended_bookkeeping_invariant :
    (∀ s, Reachable s →
      s.answers.length = s.scores.length ∧
      s.answers.length = s.current_q + (if s.feedback_shown then 1 else 0)) ∧
    (∀ s ok e,
      ((step ok s e).answers = s.answers ∧ (step ok s e).scores = s.scores) ∨
      (∃ a n, (n = 0 ∨ n = 1) ∧ (step ok s e).answers = s.answers ++ [a] ∧
        (step ok s e).scores = s.scores ++ [n]) ∨
      ((step ok s e).answers = [] ∧ (step ok s e).scores = [])) := by
  refine ⟨fun s h => ?_, fun s ok e => step_append_or_reset ok s e⟩
  induction h with
  | init m u log => exact ⟨rfl, rfl⟩
  | next t ok e ht ih => exact inv_step ok t e ih.1 ih.2

/-- C6 witness: the amended invariant at the concrete reachable
feedback state (lengths 1, index 0) and the per-step discipline at a
concrete interaction. -/
theorem C6_amended_bookkeeping_invariant_witness :
    (c6_after_answer.answers.length = c6_after_answer.scores.length ∧
     c6_after_answer.answers.length =
       c6_after_answer.current_q + (if c6_after_answer.feedback_shown then 1 else 0)) ∧
    (((step true c6_after_answer Event.rerender).answers = c6_after_answer.answers ∧
      (step true c6_after_answer Event.rerender).scores = c6_after_answer.scores) ∨
     (∃ a n, (n = 0 ∨ n = 1) ∧
       (step true c6_after_answer Event.rerender).answers = c6_after_answer.answers ++ [a] ∧
       (step true c6_after_answer Event.rerender).scores = c6_after_answer.scores ++ [n]) ∨
     ((step true c6_after_answer Event.rerender).answers = [] ∧
      (step true c6_after_answer Event.rerender).scores = [])) :=
  ⟨C6_amended_bookkeeping_invariant.1 c6_after_answer
    (Reachable.next _ true (Event.selectAnswer "True")
      (Reachable.next _ true (Event.startQuiz [tfItemT, tfItemF])
        (Reachable.init "module-a" "alice" []))),
   C6_amended_bookkeeping_invariant.2 c6_after_answer true Event.rerender⟩

end TrainingAssistant
